import Mathlib

/-!
Verification of the Netlify Graph build plugin (`src/index.js`) against its
natural-language specification.

The JavaScript source is shallowly embedded below:
* pure path/filename computation (`makeDefault*NetlifyGraphConfig`,
  `getNetlifyGraphConfig`) becomes pure Lean functions over explicit inputs
  (path separator, cwd, detected framework, filesystem facts);
* JavaScript values that can be either a string or an array of path
  segments are modelled by `JSVal`, with JavaScript truthiness made explicit;
* the external library constants from `netlify-onegraph-internal`
  (`NetlifyGraph.defaultSourceOperationsFilename`, the default config, ...)
  are opaque collaborators per the spec, so they are parameters
  (`NetlifyGraphLib`) rather than fixed values;
* the effectful `onPreBuild` handler becomes a pure function from an
  environment describing the outcome of each external interaction
  (environment variable, file reads, JSON parse, remote calls) to the list
  of observable build events it emits (warnings, status messages,
  build-failure calls, remote calls).  `utils.build.failBuild` throws in
  `@netlify/build`, which the embedding models by aborting to the
  surrounding catch handler.
-/

/-- A JavaScript value that is either a string or an array of path-segment
strings, as produced by the configuration-resolution code. -/
inductive JSVal where
  | str : String → JSVal
  | arr : List String → JSVal
deriving DecidableEq, Repr

/-- JavaScript truthiness for `JSVal`: the empty string is falsy, every
other string and every array (even the empty array) is truthy. -/
def JSVal.truthy : JSVal → Bool
  | .str s => if s = "" then false else true
  | .arr _ => true

/-- JavaScript `a || b` on string-or-array values. -/
def jsOrJ (a b : JSVal) : JSVal :=
  if a.truthy then a else b

/-- JavaScript `a || b` where `a` is a possibly-absent string and `b` a
string: an absent or empty `a` yields `b`. -/
def jsOrS (a : Option String) (b : String) : String :=
  match a with
  | some s => if s = "" then b else s
  | none => b

/-- JavaScript `a || b` on possibly-absent string-or-array values. -/
def jsOrO (a b : Option JSVal) : Option JSVal :=
  match a with
  | some v => if v.truthy then some v else b
  | none => b

/-- JavaScript truthiness of a possibly-absent string (`undefined` and the
empty string are falsy). -/
def optStrTruthy : Option String → Bool
  | none => false
  | some s => if s = "" then false else true

/-- `filterRelativePathItems` from the source: remove empty path segments. -/
def filterRelativePathItems (items : List String) : List String :=
  items.filter (fun part => part != "")

/-- JavaScript array-spread of a string (`[...s]`): one single-character
string per code point of `s`. -/
def stringSpread (s : String) : List String :=
  s.toList.map Char.toString

/-- The constants this plugin reads from the external
`netlify-onegraph-internal` library.  The library is an opaque collaborator
(a spec non-goal), so its constants are parameters of the embedding.  Of
`NetlifyGraph.defaultNetlifyGraphConfig` only the fields the plugin can
actually observe are modelled: the framework factories unconditionally
shadow the remaining fields in every object spread that mentions them. -/
structure NetlifyGraphLib where
  defaultSourceOperationsFilename : String
  defaultSourceOperationsDirectoryName : String
  defaultGraphQLSchemaFilename : String
  defaultConfigNetlifyGraphPath : List String
  defaultConfigExtension : String
  defaultConfigModuleType : Option String
  defaultConfigGraphQLConfigJsonFilename : Option (List String)
  defaultConfigCustomGeneratorFile : Option (List String)
  defaultConfigFrameworkId : Option String
  defaultConfigRuntimeTargetEnv : Option String
deriving DecidableEq, Repr

/-- The fields of `baseConfig` (the merge of the library default config
with the user config) that the framework default-config factories read. -/
structure MergedBaseConfig where
  extension : String
  moduleType : Option String
deriving DecidableEq, Repr

/-- The `{ baseConfig, detectedFunctionsPath, siteRoot }` context object
passed to each framework default-config factory. -/
structure FactoryContext where
  baseConfig : MergedBaseConfig
  detectedFunctionsPath : List String
  siteRoot : List String
deriving DecidableEq, Repr

/-- The record returned by each framework default-config factory. -/
structure FrameworkConfig where
  functionsPath : List String
  webhookBasePath : String
  netlifyGraphPath : List String
  netlifyGraphImplementationFilename : List String
  netlifyGraphTypeDefinitionsFilename : List String
  graphQLOperationsSourceDirectory : List String
  graphQLOperationsSourceFilename : List String
  graphQLSchemaFilename : List String
  netlifyGraphRequirePath : List String
  moduleType : String
deriving DecidableEq, Repr

/-- `makeDefaultNetlifyGraphConfig` from the source: defaults for a generic
site.  The source-operations directory name is appended as one segment. -/
def makeDefaultNetlifyGraphConfig (lib : NetlifyGraphLib) (c : FactoryContext) :
    FrameworkConfig :=
  let functionsPath := filterRelativePathItems c.detectedFunctionsPath
  let netlifyGraphPath := functionsPath ++ ["netlifyGraph"]
  { functionsPath := functionsPath
    webhookBasePath := "/.netlify/functions"
    netlifyGraphPath := netlifyGraphPath
    netlifyGraphImplementationFilename :=
      netlifyGraphPath ++ ["index." ++ c.baseConfig.extension]
    netlifyGraphTypeDefinitionsFilename := netlifyGraphPath ++ ["index.d.ts"]
    graphQLOperationsSourceDirectory :=
      netlifyGraphPath ++ [lib.defaultSourceOperationsDirectoryName]
    graphQLOperationsSourceFilename :=
      netlifyGraphPath ++ [lib.defaultSourceOperationsFilename]
    graphQLSchemaFilename := netlifyGraphPath ++ [lib.defaultGraphQLSchemaFilename]
    netlifyGraphRequirePath := ["./netlifyGraph"]
    moduleType := jsOrS c.baseConfig.moduleType "esm" }

/-- `makeDefaultNextJsNetlifyGraphConfig` from the source: defaults for a
Next.js site.  Note the source-operations directory name is array-spread
(`[...netlifyGraphPath, ...NetlifyGraph.defaultSourceOperationsDirectoryName]`),
which for a string value spreads its characters. -/
def makeDefaultNextJsNetlifyGraphConfig (lib : NetlifyGraphLib)
    (c : FactoryContext) : FrameworkConfig :=
  let functionsPath := filterRelativePathItems (c.siteRoot ++ ["pages", "api"])
  let netlifyGraphPath :=
    filterRelativePathItems (c.siteRoot ++ ["lib", "netlifyGraph"])
  { functionsPath := functionsPath
    webhookBasePath := "/api"
    netlifyGraphPath := netlifyGraphPath
    netlifyGraphImplementationFilename :=
      netlifyGraphPath ++ ["index." ++ c.baseConfig.extension]
    netlifyGraphTypeDefinitionsFilename := netlifyGraphPath ++ ["index.d.ts"]
    graphQLOperationsSourceDirectory :=
      netlifyGraphPath ++ stringSpread lib.defaultSourceOperationsDirectoryName
    graphQLOperationsSourceFilename :=
      netlifyGraphPath ++ [lib.defaultSourceOperationsFilename]
    graphQLSchemaFilename := netlifyGraphPath ++ [lib.defaultGraphQLSchemaFilename]
    netlifyGraphRequirePath := ["..", "..", "lib", "netlifyGraph"]
    moduleType := jsOrS c.baseConfig.moduleType "esm" }

/-- `makeDefaultRemixNetlifyGraphConfig` from the source: defaults for a
Remix site.  Like the Next.js factory it array-spreads the
source-operations directory name. -/
def makeDefaultRemixNetlifyGraphConfig (lib : NetlifyGraphLib)
    (c : FactoryContext) : FrameworkConfig :=
  let functionsPath := filterRelativePathItems c.detectedFunctionsPath
  let netlifyGraphPath :=
    filterRelativePathItems (c.siteRoot ++ lib.defaultConfigNetlifyGraphPath)
  { functionsPath := functionsPath
    webhookBasePath := "/webhooks"
    netlifyGraphPath := netlifyGraphPath
    netlifyGraphImplementationFilename :=
      netlifyGraphPath ++ ["index." ++ c.baseConfig.extension]
    netlifyGraphTypeDefinitionsFilename := netlifyGraphPath ++ ["index.d.ts"]
    graphQLOperationsSourceDirectory :=
      netlifyGraphPath ++ stringSpread lib.defaultSourceOperationsDirectoryName
    graphQLOperationsSourceFilename :=
      netlifyGraphPath ++ [lib.defaultSourceOperationsFilename]
    graphQLSchemaFilename := netlifyGraphPath ++ [lib.defaultGraphQLSchemaFilename]
    netlifyGraphRequirePath := ["../../netlify/functions/netlifyGraph"]
    moduleType := "esm" }

/-- `defaultFrameworkLookup` plus the `|| defaultFrameworkLookup.default`
fallback: any detected framework id other than `next` or `remix`
(including an absent id) selects the generic factory. -/
def frameworkFactory (detectedFrameworkId : Option String) :
    NetlifyGraphLib → FactoryContext → FrameworkConfig :=
  match detectedFrameworkId with
  | some "next" => makeDefaultNextJsNetlifyGraphConfig
  | some "remix" => makeDefaultRemixNetlifyGraphConfig
  | _ => makeDefaultNetlifyGraphConfig

/-- The user-specified `graph` section of the build configuration
(`config.graph`).  Every field is an optional string; an absent field is an
absent key in the JavaScript object. -/
structure UserGraphConfig where
  functionsPath : Option String := none
  netlifyGraphPath : Option String := none
  netlifyGraphImplementationFilename : Option String := none
  netlifyGraphTypeDefinitionsFilename : Option String := none
  graphQLOperationsSourceFilename : Option String := none
  graphQLConfigJsonFilename : Option String := none
  graphQLSchemaFilename : Option String := none
  netlifyGraphRequirePath : Option String := none
  moduleType : Option String := none
  language : Option String := none
  webhookBasePath : Option String := none
  customGeneratorFile : Option String := none
  frameworkId : Option String := none
  runtimeTargetEnv : Option String := none
  extension : Option String := none
deriving DecidableEq, Repr

/-- The parts of the resolved build configuration `getNetlifyGraphConfig`
reads: `config.functionsDirectory` and the user `config.graph` section. -/
structure ConfigInput where
  functionsDirectory : Option String := none
  graph : UserGraphConfig := {}
deriving DecidableEq, Repr

/-- The ambient inputs of `getNetlifyGraphConfig`: the platform path
separator, the working directory, the framework detector's result, the
presence of `tsconfig.json`, and the external library constants. -/
structure GraphEnv where
  sep : Char
  cwd : String
  detectedFrameworkId : Option String
  tsconfigExists : Bool
  lib : NetlifyGraphLib
deriving DecidableEq, Repr

/-- The resolved configuration returned by `getNetlifyGraphConfig`.  Fields
are `JSVal` because the JavaScript code can produce either a segment array
(the usual case) or a string (when a user override is present but empty). -/
structure FullConfig where
  functionsPath : JSVal
  webhookBasePath : JSVal
  netlifyGraphPath : JSVal
  netlifyGraphImplementationFilename : JSVal
  netlifyGraphTypeDefinitionsFilename : JSVal
  graphQLOperationsSourceFilename : JSVal
  graphQLSchemaFilename : JSVal
  graphQLConfigJsonFilename : Option JSVal
  netlifyGraphRequirePath : JSVal
  framework : String
  language : String
  moduleType : JSVal
  customGeneratorFile : Option JSVal
  runtimeTargetEnv : String
  extension : String
deriving DecidableEq, Repr

/-- `siteRoot` computation from the source: the path separator followed by
the non-empty segments of the working directory. -/
def siteRootOf (sep : Char) (cwd : String) : List String :=
  sep.toString :: filterRelativePathItems (cwd.splitOn sep.toString)

/-- `detectedFunctionsPath` computation from the source: the configured
functions directory (falling back to `netlify/functions`), split into
segments and prefixed with the path separator. -/
def detectedFunctionsPathOf (sep : Char) (functionsDirectory : Option String) :
    List String :=
  let defaultFunctionsDirectory := "netlify" ++ sep.toString ++ "functions"
  let detectedFunctionsPathString :=
    jsOrS functionsDirectory defaultFunctionsDirectory
  if detectedFunctionsPathString = "" then ["netlify", "functions"]
  else sep.toString :: detectedFunctionsPathString.splitOn sep.toString

/-- The observable part of `baseConfig = {...NetlifyGraph.defaultNetlifyGraphConfig,
...userSpecifiedConfig}`: a user-supplied field shadows the library default. -/
def mergedBaseConfigOf (lib : NetlifyGraphLib) (user : UserGraphConfig) :
    MergedBaseConfig :=
  { extension := user.extension.getD lib.defaultConfigExtension
    moduleType := user.moduleType <|> lib.defaultConfigModuleType }

/-- `defaultFrameworkConfig` computation from the source: the selected
framework factory applied to the merged base config, detected functions
path and site root. -/
def frameworkDefaultOf (env : GraphEnv) (config : ConfigInput) :
    FrameworkConfig :=
  frameworkFactory env.detectedFrameworkId env.lib
    { baseConfig := mergedBaseConfigOf env.lib config.graph
      detectedFunctionsPath :=
        detectedFunctionsPathOf env.sep config.functionsDirectory
      siteRoot := siteRootOf env.sep env.cwd }

/-- The per-field resolution pattern
`(userValue && userValue.split(path.sep)) || mergedDefault` where the merged
default is the user value itself when the user key is present (object
spread puts the user config last) and `d` otherwise. -/
def resolveField (sep : Char) (u : Option String) (d : JSVal) : JSVal :=
  match u with
  | some s => if s = "" then JSVal.str s else JSVal.arr (s.splitOn sep.toString)
  | none => d

/-- The same resolution pattern for fields whose merged default can be
absent altogether (no framework factory value and possibly no library
default). -/
def resolveOptField (sep : Char) (u : Option String) (d : Option JSVal) :
    Option JSVal :=
  match u with
  | some s =>
    if s = "" then some (JSVal.str s)
    else some (JSVal.arr (s.splitOn sep.toString))
  | none => d

/-- `getNetlifyGraphConfig` from the source: resolve every setting by
checking the user override first and the merged
base/framework/user default second, splitting path-like overrides on the
path separator.  The unused `options` and `site` parameters of the
JavaScript function are omitted. -/
def getNetlifyGraphConfig (env : GraphEnv) (config : ConfigInput) : FullConfig :=
  let user := config.graph
  let sepS := env.sep.toString
  let siteRoot := siteRootOf env.sep env.cwd
  let fw := frameworkDefaultOf env config
  let autodetectedLanguage :=
    if env.tsconfigExists then "typescript" else "javascript"
  let functionsPath :=
    match user.functionsPath with
    | some s =>
      if s = "" then JSVal.str s
      else JSVal.arr (siteRoot ++ s.splitOn sepS)
    | none => JSVal.arr fw.functionsPath
  let netlifyGraphPath :=
    jsOrJ (resolveField env.sep user.netlifyGraphPath (.arr fw.netlifyGraphPath))
      functionsPath
  let bcGraphQLConfigJsonFilename : Option JSVal :=
    (user.graphQLConfigJsonFilename.map JSVal.str) <|>
      (env.lib.defaultConfigGraphQLConfigJsonFilename.map JSVal.arr)
  let graphQLConfigJsonFilename :=
    match user.graphQLConfigJsonFilename with
    | some s =>
      if s = "" then jsOrO bcGraphQLConfigJsonFilename bcGraphQLConfigJsonFilename
      else some (JSVal.arr (s.splitOn sepS))
    | none => jsOrO bcGraphQLConfigJsonFilename bcGraphQLConfigJsonFilename
  let userSpecifiedFrameworkId :=
    match user.frameworkId with
    | some s =>
      if s = "" then user.frameworkId <|> env.lib.defaultConfigFrameworkId
      else some s
    | none => env.lib.defaultConfigFrameworkId
  { functionsPath := functionsPath
    webhookBasePath :=
      resolveField env.sep user.webhookBasePath (.str fw.webhookBasePath)
    netlifyGraphPath := netlifyGraphPath
    netlifyGraphImplementationFilename :=
      resolveField env.sep user.netlifyGraphImplementationFilename
        (.arr fw.netlifyGraphImplementationFilename)
    netlifyGraphTypeDefinitionsFilename :=
      resolveField env.sep user.netlifyGraphTypeDefinitionsFilename
        (.arr fw.netlifyGraphTypeDefinitionsFilename)
    graphQLOperationsSourceFilename :=
      resolveField env.sep user.graphQLOperationsSourceFilename
        (.arr fw.graphQLOperationsSourceFilename)
    graphQLSchemaFilename :=
      resolveField env.sep user.graphQLSchemaFilename
        (.arr fw.graphQLSchemaFilename)
    graphQLConfigJsonFilename := graphQLConfigJsonFilename
    netlifyGraphRequirePath :=
      resolveField env.sep user.netlifyGraphRequirePath
        (.arr fw.netlifyGraphRequirePath)
    framework :=
      jsOrS userSpecifiedFrameworkId (jsOrS env.detectedFrameworkId "default")
    language := jsOrS user.language autodetectedLanguage
    moduleType := resolveField env.sep user.moduleType (.str fw.moduleType)
    customGeneratorFile :=
      resolveOptField env.sep user.customGeneratorFile
        ((user.customGeneratorFile.map JSVal.str) <|>
          (env.lib.defaultConfigCustomGeneratorFile.map JSVal.arr))
    runtimeTargetEnv :=
      jsOrS user.runtimeTargetEnv
        (jsOrS (user.runtimeTargetEnv <|> env.lib.defaultConfigRuntimeTargetEnv)
          "node")
    extension := (mergedBaseConfigOf env.lib user).extension }

/-- A discovered file in the operations source directory: its name and the
list of GraphQL definitions its parsed content contains.  Parsing is an
external collaborator, so the definitions are given, not computed; their
type is abstract. -/
structure SourceFile (α : Type) where
  name : String
  definitions : List α
deriving DecidableEq, Repr

/-- Whether `pat` occurs at the start of `cs`. -/
def prefixMatch : List Char → List Char → Bool
  | [], _ => true
  | _ :: _, [] => false
  | p :: ps, c :: cs => p == c && prefixMatch ps cs

/-- Whether `pat` occurs anywhere in `cs`. -/
def containsPattern (pat : List Char) : List Char → Bool
  | [] => prefixMatch pat []
  | c :: cs => prefixMatch pat (c :: cs) || containsPattern pat cs

/-- The filename test `/.*\.(graphql?)/gi.test(filename)` from the source:
the regex literal is re-created on each call (so no `lastIndex` state
survives), and an unanchored match of `.*\.graphq` followed by an optional
`l` succeeds exactly when the filename contains `.graphq`,
case-insensitively (lower-casing models the `i` flag for ASCII names). -/
def matchesOperationFilename (filename : String) : Bool :=
  containsPattern ".graphq".toList (filename.toList.map Char.toLower)

/-- `readGraphQLOperationsSourceFiles` from the source, on the definition
level: keep the directory entries whose name matches the operations-file
pattern, then fold the files' definition lists together
(`definitions: [...acc.definitions, ...definitions]`) starting from the
empty document.  The printed document carries these definitions in this
order. -/
def readGraphQLOperationsSourceFiles {α : Type} (files : List (SourceFile α)) :
    List α :=
  let operationFiles := files.filter (fun f => matchesOperationFilename f.name)
  operationFiles.foldl (fun acc f => acc ++ f.definitions) []

/-- One observable action of the `onPreBuild` handler.  Plain `console.log`
progress lines are not modelled; `console.warn`/`console.error`, the
build-status API, the build-failure API and the two remote-calling steps
are.  `failBuild`'s second field records whether a structured details
object was passed along with the message. -/
inductive BuildEvent where
  | warn (message : String)
  | consoleError (message : String)
  | statusShow (title : String) (summary : String)
  | failBuild (message : String) (hasDetails : Bool)
  | remoteCreateSchema
  | generateFunctions
deriving DecidableEq, Repr

/-- Whether an event reaches out to the remote GraphQL backend: the
schema-creation mutation, and the delegated generator (which persists the
operations remotely). -/
def BuildEvent.isRemoteCall : BuildEvent → Bool
  | .remoteCreateSchema => true
  | .generateFunctions => true
  | _ => false

/-- Whether an event is a call of the build-failure API. -/
def BuildEvent.isFailBuild : BuildEvent → Bool
  | .failBuild _ _ => true
  | _ => false

/-- The warning printed when the persistence token is missing. -/
def missingTokenWarning : String :=
  "Missing the NETLIFY_GRAPH_PERSIST_QUERY_TOKEN enviroment variable, skipping production Netlify Graph client generation.\n\nRun `netlify graph:init` to generate a new token."

/-- The build-status title shown when the persistence token is missing. -/
def missingTokenTitle : String :=
  "Netlify Graph Build Plugin: Missing NETLIFY_GRAPH_PERSIST_QUERY_TOKEN"

/-- The build-status summary shown when the persistence token is missing
(the stray indentation comes from the source's template literal). -/
def missingTokenSummary : String :=
  "Skipped production Netlify Graph client generation due to missing token\n\n      Run `netlify graph:init` to generate a new token"

/-- The build-failure message for an unreadable or unparsable
`netlifyGraph.json`. -/
def jsonReadFailMessage : String :=
  "Error reading netlifyGraph.json. Be sure to run `netlify graph:init` and commit the resulting json file."

/-- The build-failure message for a detected legacy single-file operations
library. -/
def legacyMigrationMessage : String :=
  "Found legacy single-file operations library. Run `netlify graph:library` to migrate"

/-- The warning printed when the aggregated operations document is empty. -/
def emptyOperationsWarning : String :=
  "No Graph operations library found, skipping production client generation."

/-- The build-failure message of the outer catch-all error handler. -/
def genericFailureMessage : String :=
  "Error generating a production Netlify Graph client"

deriving instance DecidableEq for Except

/-- The outcomes of every external interaction `onPreBuild` performs, given
as data so the handler itself is a pure function.  `Except.error` marks an
interaction that throws (or, for `netlifyGraphJsonParse`, whose read or
JSON parse throws). -/
structure PreBuildEnv where
  netlifyToken : Option String
  netlifyGraphJsonParse : Except String Unit
  createSchemaResult : Except String Unit
  schemaFileRead : Except String String
  buildSchemaResult : Except String Unit
  legacyFile : Option String
  readOpsResult : Except String String
  parseOpsOk : Bool
  generateResult : Except String (List String × Nat)
deriving DecidableEq, Repr

/-- Drop leading whitespace characters from a character list. -/
def dropLeadingWhitespace : List Char → List Char
  | [] => []
  | c :: cs => if c.isWhitespace then dropLeadingWhitespace cs else c :: cs

/-- The `.trim()` call on the aggregated operations document: strip leading
and trailing whitespace. -/
def jsTrim (s : String) : String :=
  String.mk
    (List.reverse (dropLeadingWhitespace
      (List.reverse (dropLeadingWhitespace s.data))))

/-- The `try` block of `onPreBuild` (everything after the token check).
Returns `.ok trace` when the block runs to completion or returns early, and
`.error trace` when it throws: either an external interaction throws, or
`build.failBuild` is called (which throws in `@netlify/build`). -/
def onPreBuildTry (env : PreBuildEnv) : Except (List BuildEvent) (List BuildEvent) :=
  match env.netlifyGraphJsonParse with
  | .error _ => .error [.failBuild jsonReadFailMessage true]
  | .ok _ =>
    let evs := [BuildEvent.remoteCreateSchema]
    match env.createSchemaResult with
    | .error _ => .error evs
    | .ok _ =>
      match env.schemaFileRead with
      | .error _ => .error evs
      | .ok _ =>
        match env.buildSchemaResult with
        | .error e =>
          .ok (evs ++
            [.consoleError ("Error parsing schema: " ++ e),
             .consoleError "Failed to parse Netlify GraphQL schema"])
        | .ok _ =>
          if optStrTruthy env.legacyFile then
            .error (evs ++ [.failBuild legacyMigrationMessage false])
          else
            match env.readOpsResult with
            | .error _ => .error evs
            | .ok doc =>
              if (jsTrim doc).length = 0 then
                .ok (evs ++ [.warn emptyOperationsWarning])
              else if !env.parseOpsOk then .error evs
              else
                let evs2 := evs ++ [BuildEvent.generateFunctions]
                match env.generateResult with
                | .error _ => .error evs2
                | .ok (failed, generated) =>
                  if failed.length > 0 then
                    .error (evs2 ++
                      [.statusShow
                          ("Netlify Graph Build Plugin: Failed to persist " ++
                            toString failed.length ++ " Graph functions")
                          "See the log for details",
                       .failBuild
                          ("Error persisting Netlify Graph operations for production: [" ++
                            String.intercalate ", " failed ++ "]")
                          true])
                  else
                    .ok (evs2 ++
                      [.statusShow
                          ("Netlify Graph Build Plugin: Successfully persisted " ++
                            toString generated ++ " Graph functions")
                          "See the log for details"])

/-- `onPreBuild` from the source: a missing (or empty) persistence token
warns, shows a build-status message and returns; otherwise the body runs
and any exception it throws is caught and reported through the
build-failure API with the generic message. -/
def onPreBuild (env : PreBuildEnv) : List BuildEvent :=
  if optStrTruthy env.netlifyToken then
    match onPreBuildTry env with
    | .ok evs => evs
    | .error evs => evs ++ [.failBuild genericFailureMessage true]
  else
    [.warn missingTokenWarning, .statusShow missingTokenTitle missingTokenSummary]

/-- No segment of the list is the empty string. -/
def noEmptySegments (l : List String) : Prop :=
  ∀ s ∈ l, s ≠ ""

/-- The per-framework shape the amended C7 claim asserts: no empty segments
in the produced path arrays, the implementation filename is the
Netlify-Graph directory plus an index filename with the configured
extension, and the type-definition filename is the Netlify-Graph directory
plus the fixed `index.d.ts`. -/
def factoryPathsOk (f : FrameworkConfig) (ext : String) : Prop :=
  noEmptySegments f.functionsPath ∧
  noEmptySegments f.netlifyGraphPath ∧
  noEmptySegments f.netlifyGraphImplementationFilename ∧
  noEmptySegments f.netlifyGraphTypeDefinitionsFilename ∧
  noEmptySegments f.graphQLOperationsSourceFilename ∧
  noEmptySegments f.graphQLSchemaFilename ∧
  f.netlifyGraphImplementationFilename = f.netlifyGraphPath ++ ["index." ++ ext] ∧
  f.netlifyGraphTypeDefinitionsFilename = f.netlifyGraphPath ++ ["index.d.ts"]

/-- Plausible concrete values for the external library constants, used to
instantiate universally quantified theorems. -/
def sampleLib : NetlifyGraphLib :=
  { defaultSourceOperationsFilename := "netlifyGraphOperationsLibrary.graphql"
    defaultSourceOperationsDirectoryName := "operations"
    defaultGraphQLSchemaFilename := "netlifyGraphSchema.graphql"
    defaultConfigNetlifyGraphPath := ["netlify", "functions", "netlifyGraph"]
    defaultConfigExtension := "js"
    defaultConfigModuleType := some "esm"
    defaultConfigGraphQLConfigJsonFilename := some ["netlifyGraphConfig.json"]
    defaultConfigCustomGeneratorFile := none
    defaultConfigFrameworkId := none
    defaultConfigRuntimeTargetEnv := none }

/-- A concrete factory context for instantiating theorems. -/
def sampleFactoryContext : FactoryContext :=
  { baseConfig := { extension := "js", moduleType := some "esm" }
    detectedFunctionsPath := ["/", "site", "netlify", "functions"]
    siteRoot := ["/", "site"] }

/-- Concrete operation files (with `Nat` standing in for parsed GraphQL
definition nodes) for instantiating the aggregation theorem. -/
def sampleOperationFiles : List (SourceFile Nat) :=
  [{ name := "getUser.graphql", definitions := [0, 1] },
   { name := "EMPTY.GRAPHQL", definitions := [] },
   { name := "mutate.graphql", definitions := [2] }]

/-- A pre-build environment in which every external interaction succeeds:
token present, state file parsed, remote schema created, schema file read
and built, no legacy file, a non-empty operations document that parses, and
no failed persisted functions. -/
def happyPreBuildEnv : PreBuildEnv :=
  { netlifyToken := some "token-123"
    netlifyGraphJsonParse := .ok ()
    createSchemaResult := .ok ()
    schemaFileRead := .ok "type Query"
    buildSchemaResult := .ok ()
    legacyFile := none
    readOpsResult := .ok "query Ping"
    parseOpsOk := true
    generateResult := .ok ([], 1) }

/-- The happy environment with the persistence token absent. -/
def missingTokenEnv : PreBuildEnv :=
  { happyPreBuildEnv with netlifyToken := none }

/-- The happy environment where reading/parsing netlifyGraph.json throws. -/
def jsonErrorEnv : PreBuildEnv :=
  { happyPreBuildEnv with netlifyGraphJsonParse := .error "Unexpected token" }

/-- The happy environment where building the GraphQL schema throws. -/
def schemaParseFailEnv : PreBuildEnv :=
  { happyPreBuildEnv with buildSchemaResult := .error "Syntax Error" }

/-- The happy environment where the legacy single-file operations source
exists but is empty: the read returns the non-null empty string while
new-style operation files also exist. -/
def emptyLegacyEnv : PreBuildEnv :=
  { happyPreBuildEnv with legacyFile := some "" }

/-- The happy environment where a non-empty legacy single-file operations
source exists alongside the new-style operation files. -/
def legacyPresentEnv : PreBuildEnv :=
  { happyPreBuildEnv with legacyFile := some "query OldOperation" }

/-- The happy environment where the aggregated operations document is
whitespace only. -/
def emptyOpsEnv : PreBuildEnv :=
  { happyPreBuildEnv with readOpsResult := .ok "  \n " }

/-- A concrete environment for instantiating the configuration theorems. -/
def sampleGraphEnv : GraphEnv :=
  { sep := '/'
    cwd := "/srv/site"
    detectedFrameworkId := some "next"
    tsconfigExists := false
    lib := sampleLib }

/-- A user configuration overriding every individually overridable setting. -/
def fullUserConfig : UserGraphConfig :=
  { functionsPath := some "custom/fns"
    netlifyGraphPath := some "custom/graph"
    netlifyGraphImplementationFilename := some "custom/graph/impl.js"
    netlifyGraphTypeDefinitionsFilename := some "custom/graph/impl.d.ts"
    graphQLOperationsSourceFilename := some "custom/graph/ops.graphql"
    graphQLConfigJsonFilename := some "custom/config.json"
    graphQLSchemaFilename := some "custom/schema.graphql"
    netlifyGraphRequirePath := some "./customGraph"
    moduleType := some "commonjs"
    language := some "typescript"
    webhookBasePath := some "/hooks"
    customGeneratorFile := some "gen/custom.js"
    frameworkId := some "remix"
    runtimeTargetEnv := some "browser"
    extension := some "ts" }

theorem filterRelativePathItems_noEmpty (items : List String) :
    noEmptySegments (filterRelativePathItems items) := by
  intro s hs
  rw [filterRelativePathItems, List.mem_filter] at hs
  simpa using hs.2

theorem noEmptySegments_append {l₁ l₂ : List String}
    (h₁ : noEmptySegments l₁) (h₂ : noEmptySegments l₂) :
    noEmptySegments (l₁ ++ l₂) := by
  intro s hs
  rcases List.mem_append.mp hs with h | h
  · exact h₁ s h
  · exact h₂ s h

theorem noEmptySegments_singleton {s : String} (h : s ≠ "") :
    noEmptySegments [s] := by
  intro x hx
  rcases List.mem_singleton.mp hx with rfl
  exact h

theorem string_append_ne_empty (s t : String) (h : s ≠ "") : s ++ t ≠ "" := by
  intro hc
  have hd : s.data ++ t.data = [] := congrArg String.data hc
  have hs : s.data = [] := (List.append_eq_nil.mp hd).1
  apply h
  cases s
  cases hs
  rfl

theorem foldl_append_definitions {α : Type} (files : List (SourceFile α))
    (init : List α) :
    files.foldl (fun acc f => acc ++ f.definitions) init =
      init ++ (files.map (fun f => f.definitions)).flatten := by
  induction files generalizing init with
  | nil => simp
  | cons f fs ih => simp [ih]

/-- C4: aggregating N discovered operation files, each with zero or more
GraphQL definitions, yields one document whose definitions are the
concatenation of the per-file definition lists in file order (each file's
definitions keeping their relative order), so the definition count is the
sum of the per-file counts. -/
theorem readGraphQLOperationsSourceFiles_concat {α : Type}
    (files : List (SourceFile α))
    (h : ∀ f ∈ files, matchesOperationFilename f.name = true) :
    readGraphQLOperationsSourceFiles files =
        (files.map (fun f => f.definitions)).flatten ∧
      (readGraphQLOperationsSourceFiles files).length =
        (files.map (fun f => f.definitions.length)).sum := by
  have hf : files.filter (fun f => matchesOperationFilename f.name) = files :=
    List.filter_eq_self.mpr h
  constructor
  · rw [readGraphQLOperationsSourceFiles]
    simp only [hf]
    rw [foldl_append_definitions]
    simp
  · rw [readGraphQLOperationsSourceFiles]
    simp only [hf]
    rw [foldl_append_definitions]
    simp [List.length_flatten, List.map_map, Function.comp_def]

/-- Witness for C4 at concrete operation files. -/
theorem readGraphQLOperationsSourceFiles_concat_witness :
    readGraphQLOperationsSourceFiles sampleOperationFiles =
        (sampleOperationFiles.map (fun f => f.definitions)).flatten ∧
      (readGraphQLOperationsSourceFiles sampleOperationFiles).length =
        (sampleOperationFiles.map (fun f => f.definitions.length)).sum :=
  readGraphQLOperationsSourceFiles_concat sampleOperationFiles (by decide)

theorem stringSpread_length (s : String) :
    (stringSpread s).length = s.length := by
  unfold stringSpread
  rw [List.length_map]
  rfl

/-- C10: the generic default-config factory appends the default
source-operations directory name to the Netlify-Graph path as exactly one
segment, while the Next.js and Remix factories array-spread it, so for a
string default of length n they append n single-character segments. -/
theorem operationsSourceDirectory_spread (lib : NetlifyGraphLib)
    (c : FactoryContext) :
    (makeDefaultNetlifyGraphConfig lib c).graphQLOperationsSourceDirectory =
        (makeDefaultNetlifyGraphConfig lib c).netlifyGraphPath ++
          [lib.defaultSourceOperationsDirectoryName] ∧
      (makeDefaultNetlifyGraphConfig lib c).graphQLOperationsSourceDirectory.length =
        (makeDefaultNetlifyGraphConfig lib c).netlifyGraphPath.length + 1 ∧
      (makeDefaultNextJsNetlifyGraphConfig lib c).graphQLOperationsSourceDirectory =
        (makeDefaultNextJsNetlifyGraphConfig lib c).netlifyGraphPath ++
          lib.defaultSourceOperationsDirectoryName.toList.map Char.toString ∧
      (makeDefaultNextJsNetlifyGraphConfig lib c).graphQLOperationsSourceDirectory.length =
        (makeDefaultNextJsNetlifyGraphConfig lib c).netlifyGraphPath.length +
          lib.defaultSourceOperationsDirectoryName.length ∧
      (makeDefaultRemixNetlifyGraphConfig lib c).graphQLOperationsSourceDirectory =
        (makeDefaultRemixNetlifyGraphConfig lib c).netlifyGraphPath ++
          lib.defaultSourceOperationsDirectoryName.toList.map Char.toString ∧
      (makeDefaultRemixNetlifyGraphConfig lib c).graphQLOperationsSourceDirectory.length =
        (makeDefaultRemixNetlifyGraphConfig lib c).netlifyGraphPath.length +
          lib.defaultSourceOperationsDirectoryName.length := by
  refine ⟨rfl, ?_, rfl, ?_, rfl, ?_⟩
  · show ((filterRelativePathItems c.detectedFunctionsPath ++ ["netlifyGraph"]) ++
        [lib.defaultSourceOperationsDirectoryName]).length =
      (filterRelativePathItems c.detectedFunctionsPath ++ ["netlifyGraph"]).length + 1
    rw [List.length_append]
    rfl
  · show ((filterRelativePathItems (c.siteRoot ++ ["lib", "netlifyGraph"])) ++
        stringSpread lib.defaultSourceOperationsDirectoryName).length =
      (filterRelativePathItems (c.siteRoot ++ ["lib", "netlifyGraph"])).length +
        lib.defaultSourceOperationsDirectoryName.length
    rw [List.length_append, stringSpread_length]
  · show ((filterRelativePathItems (c.siteRoot ++ lib.defaultConfigNetlifyGraphPath)) ++
        stringSpread lib.defaultSourceOperationsDirectoryName).length =
      (filterRelativePathItems (c.siteRoot ++ lib.defaultConfigNetlifyGraphPath)).length +
        lib.defaultSourceOperationsDirectoryName.length
    rw [List.length_append, stringSpread_length]

/-- C7 counterexample: with configured extension `js`, the generic
factory's type-definition filename is the directory plus the fixed
`index.d.ts`, not an index filename carrying the configured extension, so
the claim fails at this input. -/
theorem typeDefinitionsFilename_extension_counterexample :
    (makeDefaultNetlifyGraphConfig sampleLib
          sampleFactoryContext).netlifyGraphTypeDefinitionsFilename ≠
      (makeDefaultNetlifyGraphConfig sampleLib
          sampleFactoryContext).netlifyGraphPath ++
        ["index." ++ sampleFactoryContext.baseConfig.extension] := by
  decide

/-- C7 (amended): for each supported framework id (generic, Next.js,
Remix), given non-empty library filename constants, the factory's path
arrays have no empty segments, the implementation filename is the
Netlify-Graph directory plus an index filename carrying the configured
extension, and the type-definition filename is the Netlify-Graph directory
plus the fixed TypeScript declaration filename `index.d.ts`. -/
theorem defaultConfig_factories_paths (lib : NetlifyGraphLib)
    (c : FactoryContext)
    (hops : lib.defaultSourceOperationsFilename ≠ "")
    (hschema : lib.defaultGraphQLSchemaFilename ≠ "") :
    factoryPathsOk (makeDefaultNetlifyGraphConfig lib c)
        c.baseConfig.extension ∧
      factoryPathsOk (makeDefaultNextJsNetlifyGraphConfig lib c)
        c.baseConfig.extension ∧
      factoryPathsOk (makeDefaultRemixNetlifyGraphConfig lib c)
        c.baseConfig.extension := by
  have hidx : "index." ++ c.baseConfig.extension ≠ "" :=
    string_append_ne_empty "index." c.baseConfig.extension (by decide)
  have hdts : ("index.d.ts" : String) ≠ "" := by decide
  have hfp := filterRelativePathItems_noEmpty c.detectedFunctionsPath
  have hnextfp :=
    filterRelativePathItems_noEmpty (c.siteRoot ++ ["pages", "api"])
  have hnextng :=
    filterRelativePathItems_noEmpty (c.siteRoot ++ ["lib", "netlifyGraph"])
  have hremixng :=
    filterRelativePathItems_noEmpty
      (c.siteRoot ++ lib.defaultConfigNetlifyGraphPath)
  have hng : noEmptySegments
      (filterRelativePathItems c.detectedFunctionsPath ++ ["netlifyGraph"]) :=
    noEmptySegments_append hfp (noEmptySegments_singleton (by decide))
  refine ⟨⟨hfp, hng, ?_, ?_, ?_, ?_, rfl, rfl⟩,
    ⟨hnextfp, hnextng, ?_, ?_, ?_, ?_, rfl, rfl⟩,
    ⟨hfp, hremixng, ?_, ?_, ?_, ?_, rfl, rfl⟩⟩
  · exact noEmptySegments_append hng (noEmptySegments_singleton hidx)
  · exact noEmptySegments_append hng (noEmptySegments_singleton hdts)
  · exact noEmptySegments_append hng (noEmptySegments_singleton hops)
  · exact noEmptySegments_append hng (noEmptySegments_singleton hschema)
  · exact noEmptySegments_append hnextng (noEmptySegments_singleton hidx)
  · exact noEmptySegments_append hnextng (noEmptySegments_singleton hdts)
  · exact noEmptySegments_append hnextng (noEmptySegments_singleton hops)
  · exact noEmptySegments_append hnextng (noEmptySegments_singleton hschema)
  · exact noEmptySegments_append hremixng (noEmptySegments_singleton hidx)
  · exact noEmptySegments_append hremixng (noEmptySegments_singleton hdts)
  · exact noEmptySegments_append hremixng (noEmptySegments_singleton hops)
  · exact noEmptySegments_append hremixng (noEmptySegments_singleton hschema)

/-- Witness for the amended C7 at concrete library constants and context. -/
theorem defaultConfig_factories_paths_witness :
    factoryPathsOk (makeDefaultNetlifyGraphConfig sampleLib sampleFactoryContext)
        sampleFactoryContext.baseConfig.extension ∧
      factoryPathsOk
        (makeDefaultNextJsNetlifyGraphConfig sampleLib sampleFactoryContext)
        sampleFactoryContext.baseConfig.extension ∧
      factoryPathsOk
        (makeDefaultRemixNetlifyGraphConfig sampleLib sampleFactoryContext)
        sampleFactoryContext.baseConfig.extension :=
  defaultConfig_factories_paths sampleLib sampleFactoryContext (by decide)
    (by decide)

/-- C2: when the persistence-token environment variable is absent,
`onPreBuild` emits exactly the warning and the build-status message: no
remote call is made, the build-failure API is never called, and the handler
returns early. -/
theorem onPreBuild_missing_token (env : PreBuildEnv)
    (h : env.netlifyToken = none) :
    onPreBuild env =
        [.warn missingTokenWarning,
         .statusShow missingTokenTitle missingTokenSummary] ∧
      (∀ e ∈ onPreBuild env, e.isRemoteCall = false) ∧
      (∀ e ∈ onPreBuild env, e.isFailBuild = false) := by
  have ht : optStrTruthy env.netlifyToken = false := by
    rw [h]
    rfl
  refine ⟨?_, ?_, ?_⟩ <;>
    simp [onPreBuild, ht, BuildEvent.isRemoteCall, BuildEvent.isFailBuild]

/-- Witness for C2 at a concrete environment without a token. -/
theorem onPreBuild_missing_token_witness :
    onPreBuild missingTokenEnv =
        [.warn missingTokenWarning,
         .statusShow missingTokenTitle missingTokenSummary] ∧
      (∀ e ∈ onPreBuild missingTokenEnv, e.isRemoteCall = false) ∧
      (∀ e ∈ onPreBuild missingTokenEnv, e.isFailBuild = false) :=
  onPreBuild_missing_token missingTokenEnv rfl

/-- C6: when reading or JSON-parsing `netlifyGraph.json` throws,
`onPreBuild` calls the build-failure API with the remediation message
(run the init command and commit the resulting json file) and the
structured error; because `failBuild` throws, the outer handler then also
reports the generic failure. -/
theorem onPreBuild_json_error (env : PreBuildEnv) (t e : String)
    (ht : env.netlifyToken = some t) (htne : t ≠ "")
    (he : env.netlifyGraphJsonParse = .error e) :
    BuildEvent.failBuild jsonReadFailMessage true ∈ onPreBuild env ∧
      onPreBuild env =
        [.failBuild jsonReadFailMessage true,
         .failBuild genericFailureMessage true] := by
  have htok : optStrTruthy env.netlifyToken = true := by
    rw [ht]
    simp [optStrTruthy, htne]
  constructor <;> simp [onPreBuild, onPreBuildTry, htok, he]

/-- Witness for C6 at a concrete environment whose state-file parse throws. -/
theorem onPreBuild_json_error_witness :
    BuildEvent.failBuild jsonReadFailMessage true ∈ onPreBuild jsonErrorEnv ∧
      onPreBuild jsonErrorEnv =
        [.failBuild jsonReadFailMessage true,
         .failBuild genericFailureMessage true] :=
  onPreBuild_json_error jsonErrorEnv "token-123" "Unexpected token" rfl
    (by decide) rfl

/-- C5 counterexample: a run whose schema build throws emits console errors
but never calls the build-failure API, so schema parse failure is not a
hard failure as the claim states. -/
theorem schema_parse_failure_counterexample :
    schemaParseFailEnv.buildSchemaResult = Except.error "Syntax Error" ∧
      ∀ e ∈ onPreBuild schemaParseFailEnv, e.isFailBuild = false := by
  constructor
  · rfl
  · decide

/-- C5 (amended): when building the GraphQL schema from the schema text
file fails, `onPreBuild` logs the parse error and a failure notice to the
console and returns early without calling the build-failure API: schema
parse failure is a soft skip, not a hard abort. -/
theorem onPreBuild_schema_parse_failure (env : PreBuildEnv) (t m e : String)
    (ht : env.netlifyToken = some t) (htne : t ≠ "")
    (hj : env.netlifyGraphJsonParse = .ok ())
    (hc : env.createSchemaResult = .ok ())
    (hr : env.schemaFileRead = .ok m)
    (hb : env.buildSchemaResult = .error e) :
    onPreBuild env =
        [.remoteCreateSchema,
         .consoleError ("Error parsing schema: " ++ e),
         .consoleError "Failed to parse Netlify GraphQL schema"] ∧
      ∀ ev ∈ onPreBuild env, ev.isFailBuild = false := by
  have htok : optStrTruthy env.netlifyToken = true := by
    rw [ht]
    simp [optStrTruthy, htne]
  have h1 : onPreBuild env =
      [.remoteCreateSchema,
       .consoleError ("Error parsing schema: " ++ e),
       .consoleError "Failed to parse Netlify GraphQL schema"] := by
    simp [onPreBuild, onPreBuildTry, htok, hj, hc, hr, hb]
  refine ⟨h1, ?_⟩
  rw [h1]
  simp [BuildEvent.isFailBuild]

/-- Witness for the amended C5 at a concrete failing schema build. -/
theorem onPreBuild_schema_parse_failure_witness :
    onPreBuild schemaParseFailEnv =
        [.remoteCreateSchema,
         .consoleError ("Error parsing schema: " ++ "Syntax Error"),
         .consoleError "Failed to parse Netlify GraphQL schema"] ∧
      ∀ ev ∈ onPreBuild schemaParseFailEnv, ev.isFailBuild = false :=
  onPreBuild_schema_parse_failure schemaParseFailEnv "token-123" "type Query"
    "Syntax Error" rfl (by decide) rfl rfl rfl rfl

/-- C3 counterexample: a run where the legacy operations source exists but
is empty: `readLegacyGraphQLOperationsSourceFile` returns the non-null
empty string, new-style operation files exist, yet the build-failure API is
never called with the migration message (the code tests JavaScript
truthiness, not nullness). -/
theorem legacy_empty_file_counterexample :
    emptyLegacyEnv.legacyFile ≠ none ∧
      BuildEvent.failBuild legacyMigrationMessage false ∉
        onPreBuild emptyLegacyEnv := by
  constructor
  · simp [emptyLegacyEnv, happyPreBuildEnv]
  · decide

/-- C3 (amended): in any run that reaches the legacy check (token present,
state file parsed, remote schema created, schema file read and built), a
non-null and non-empty legacy single-file operations source makes
`onPreBuild` call the build-failure API with the migration-instruction
message, regardless of the new-style per-operation files: the trace does
not depend on the operations-directory fields of the environment. -/
theorem onPreBuild_legacy_file (env : PreBuildEnv) (t m s : String)
    (ht : env.netlifyToken = some t) (htne : t ≠ "")
    (hj : env.netlifyGraphJsonParse = .ok ())
    (hc : env.createSchemaResult = .ok ())
    (hr : env.schemaFileRead = .ok m)
    (hb : env.buildSchemaResult = .ok ())
    (hl : env.legacyFile = some s) (hsne : s ≠ "") :
    BuildEvent.failBuild legacyMigrationMessage false ∈ onPreBuild env ∧
      onPreBuild env =
        [.remoteCreateSchema,
         .failBuild legacyMigrationMessage false,
         .failBuild genericFailureMessage true] := by
  have htok : optStrTruthy env.netlifyToken = true := by
    rw [ht]
    simp [optStrTruthy, htne]
  have hleg : optStrTruthy env.legacyFile = true := by
    rw [hl]
    simp [optStrTruthy, hsne]
  constructor <;> simp [onPreBuild, onPreBuildTry, htok, hj, hc, hr, hb, hleg]

/-- Witness for the amended C3 at a concrete non-empty legacy file. -/
theorem onPreBuild_legacy_file_witness :
    BuildEvent.failBuild legacyMigrationMessage false ∈
        onPreBuild legacyPresentEnv ∧
      onPreBuild legacyPresentEnv =
        [.remoteCreateSchema,
         .failBuild legacyMigrationMessage false,
         .failBuild genericFailureMessage true] :=
  onPreBuild_legacy_file legacyPresentEnv "token-123" "type Query"
    "query OldOperation" rfl (by decide) rfl rfl rfl rfl rfl (by decide)

/-- C8: when the aggregated operations document trims to the empty string,
`onPreBuild` logs a warning and returns early: it neither calls the
build-failure API nor delegates to the persisted-function generator. -/
theorem onPreBuild_empty_operations (env : PreBuildEnv) (t m doc : String)
    (ht : env.netlifyToken = some t) (htne : t ≠ "")
    (hj : env.netlifyGraphJsonParse = .ok ())
    (hc : env.createSchemaResult = .ok ())
    (hr : env.schemaFileRead = .ok m)
    (hb : env.buildSchemaResult = .ok ())
    (hl : optStrTruthy env.legacyFile = false)
    (ho : env.readOpsResult = .ok doc)
    (hd : (jsTrim doc).length = 0) :
    onPreBuild env = [.remoteCreateSchema, .warn emptyOperationsWarning] ∧
      (∀ ev ∈ onPreBuild env, ev.isFailBuild = false) ∧
      BuildEvent.generateFunctions ∉ onPreBuild env := by
  have htok : optStrTruthy env.netlifyToken = true := by
    rw [ht]
    simp [optStrTruthy, htne]
  have h1 : onPreBuild env =
      [.remoteCreateSchema, .warn emptyOperationsWarning] := by
    simp [onPreBuild, onPreBuildTry, htok, hj, hc, hr, hb, hl, ho, hd]
  refine ⟨h1, ?_, ?_⟩ <;> rw [h1]
  · simp [BuildEvent.isFailBuild]
  · simp

/-- Witness for C8 at a concrete whitespace-only operations document. -/
theorem onPreBuild_empty_operations_witness :
    onPreBuild emptyOpsEnv =
        [.remoteCreateSchema, .warn emptyOperationsWarning] ∧
      (∀ ev ∈ onPreBuild emptyOpsEnv, ev.isFailBuild = false) ∧
      BuildEvent.generateFunctions ∉ onPreBuild emptyOpsEnv :=
  onPreBuild_empty_operations emptyOpsEnv "token-123" "type Query" "  \n "
    rfl (by decide) rfl rfl rfl rfl rfl rfl (by decide)

/-- C1: every individually overridable setting of the resolved Netlify
Graph configuration resolves with precedence user override, then framework
default, then library base default.  The first block shows that a non-empty
user override determines each setting (path-like overrides split on the
path separator, the functions path additionally rooted at the site root);
the second block shows that with no user overrides each setting falls back
to the framework default where the factory provides one (functions path,
Netlify-Graph path, implementation, type-definition, operations-source and
schema filenames, require path, module type, webhook base path), and
otherwise to the library base default (config JSON filename, custom
generator file, framework id, runtime target env) or the auto-detected
language. -/
theorem getNetlifyGraphConfig_override_precedence
    (env : GraphEnv) (fd : Option String) (u : UserGraphConfig)
    (vFns vNg vImpl vTypes vOps vJson vSchema vReq vMod vLang vHook vGen vFid vRte : String)
    (hFns : u.functionsPath = some vFns) (nFns : vFns ≠ "")
    (hNg : u.netlifyGraphPath = some vNg) (nNg : vNg ≠ "")
    (hImpl : u.netlifyGraphImplementationFilename = some vImpl) (nImpl : vImpl ≠ "")
    (hTypes : u.netlifyGraphTypeDefinitionsFilename = some vTypes) (nTypes : vTypes ≠ "")
    (hOps : u.graphQLOperationsSourceFilename = some vOps) (nOps : vOps ≠ "")
    (hJson : u.graphQLConfigJsonFilename = some vJson) (nJson : vJson ≠ "")
    (hSchema : u.graphQLSchemaFilename = some vSchema) (nSchema : vSchema ≠ "")
    (hReq : u.netlifyGraphRequirePath = some vReq) (nReq : vReq ≠ "")
    (hMod : u.moduleType = some vMod) (nMod : vMod ≠ "")
    (hLang : u.language = some vLang) (nLang : vLang ≠ "")
    (hHook : u.webhookBasePath = some vHook) (nHook : vHook ≠ "")
    (hGen : u.customGeneratorFile = some vGen) (nGen : vGen ≠ "")
    (hFid : u.frameworkId = some vFid) (nFid : vFid ≠ "")
    (hRte : u.runtimeTargetEnv = some vRte) (nRte : vRte ≠ "") :
    ((getNetlifyGraphConfig env { functionsDirectory := fd, graph := u }).functionsPath =
        JSVal.arr (siteRootOf env.sep env.cwd ++ vFns.splitOn env.sep.toString) ∧
      (getNetlifyGraphConfig env { functionsDirectory := fd, graph := u }).netlifyGraphPath =
        JSVal.arr (vNg.splitOn env.sep.toString) ∧
      (getNetlifyGraphConfig env { functionsDirectory := fd, graph := u }).netlifyGraphImplementationFilename =
        JSVal.arr (vImpl.splitOn env.sep.toString) ∧
      (getNetlifyGraphConfig env { functionsDirectory := fd, graph := u }).netlifyGraphTypeDefinitionsFilename =
        JSVal.arr (vTypes.splitOn env.sep.toString) ∧
      (getNetlifyGraphConfig env { functionsDirectory := fd, graph := u }).graphQLOperationsSourceFilename =
        JSVal.arr (vOps.splitOn env.sep.toString) ∧
      (getNetlifyGraphConfig env { functionsDirectory := fd, graph := u }).graphQLConfigJsonFilename =
        some (JSVal.arr (vJson.splitOn env.sep.toString)) ∧
      (getNetlifyGraphConfig env { functionsDirectory := fd, graph := u }).graphQLSchemaFilename =
        JSVal.arr (vSchema.splitOn env.sep.toString) ∧
      (getNetlifyGraphConfig env { functionsDirectory := fd, graph := u }).netlifyGraphRequirePath =
        JSVal.arr (vReq.splitOn env.sep.toString) ∧
      (getNetlifyGraphConfig env { functionsDirectory := fd, graph := u }).moduleType =
        JSVal.arr (vMod.splitOn env.sep.toString) ∧
      (getNetlifyGraphConfig env { functionsDirectory := fd, graph := u }).language = vLang ∧
      (getNetlifyGraphConfig env { functionsDirectory := fd, graph := u }).webhookBasePath =
        JSVal.arr (vHook.splitOn env.sep.toString) ∧
      (getNetlifyGraphConfig env { functionsDirectory := fd, graph := u }).customGeneratorFile =
        some (JSVal.arr (vGen.splitOn env.sep.toString)) ∧
      (getNetlifyGraphConfig env { functionsDirectory := fd, graph := u }).framework = vFid ∧
      (getNetlifyGraphConfig env { functionsDirectory := fd, graph := u }).runtimeTargetEnv = vRte) ∧
    ((getNetlifyGraphConfig env { functionsDirectory := fd, graph := {} }).functionsPath =
        JSVal.arr (frameworkDefaultOf env { functionsDirectory := fd, graph := {} }).functionsPath ∧
      (getNetlifyGraphConfig env { functionsDirectory := fd, graph := {} }).netlifyGraphPath =
        JSVal.arr (frameworkDefaultOf env { functionsDirectory := fd, graph := {} }).netlifyGraphPath ∧
      (getNetlifyGraphConfig env { functionsDirectory := fd, graph := {} }).netlifyGraphImplementationFilename =
        JSVal.arr (frameworkDefaultOf env { functionsDirectory := fd, graph := {} }).netlifyGraphImplementationFilename ∧
      (getNetlifyGraphConfig env { functionsDirectory := fd, graph := {} }).netlifyGraphTypeDefinitionsFilename =
        JSVal.arr (frameworkDefaultOf env { functionsDirectory := fd, graph := {} }).netlifyGraphTypeDefinitionsFilename ∧
      (getNetlifyGraphConfig env { functionsDirectory := fd, graph := {} }).graphQLOperationsSourceFilename =
        JSVal.arr (frameworkDefaultOf env { functionsDirectory := fd, graph := {} }).graphQLOperationsSourceFilename ∧
      (getNetlifyGraphConfig env { functionsDirectory := fd, graph := {} }).graphQLConfigJsonFilename =
        env.lib.defaultConfigGraphQLConfigJsonFilename.map JSVal.arr ∧
      (getNetlifyGraphConfig env { functionsDirectory := fd, graph := {} }).graphQLSchemaFilename =
        JSVal.arr (frameworkDefaultOf env { functionsDirectory := fd, graph := {} }).graphQLSchemaFilename ∧
      (getNetlifyGraphConfig env { functionsDirectory := fd, graph := {} }).netlifyGraphRequirePath =
        JSVal.arr (frameworkDefaultOf env { functionsDirectory := fd, graph := {} }).netlifyGraphRequirePath ∧
      (getNetlifyGraphConfig env { functionsDirectory := fd, graph := {} }).moduleType =
        JSVal.str (frameworkDefaultOf env { functionsDirectory := fd, graph := {} }).moduleType ∧
      (getNetlifyGraphConfig env { functionsDirectory := fd, graph := {} }).language =
        (if env.tsconfigExists then "typescript" else "javascript") ∧
      (getNetlifyGraphConfig env { functionsDirectory := fd, graph := {} }).webhookBasePath =
        JSVal.str (frameworkDefaultOf env { functionsDirectory := fd, graph := {} }).webhookBasePath ∧
      (getNetlifyGraphConfig env { functionsDirectory := fd, graph := {} }).customGeneratorFile =
        env.lib.defaultConfigCustomGeneratorFile.map JSVal.arr ∧
      (getNetlifyGraphConfig env { functionsDirectory := fd, graph := {} }).framework =
        jsOrS env.lib.defaultConfigFrameworkId (jsOrS env.detectedFrameworkId "default") ∧
      (getNetlifyGraphConfig env { functionsDirectory := fd, graph := {} }).runtimeTargetEnv =
        jsOrS env.lib.defaultConfigRuntimeTargetEnv "node") := by
  constructor
  · refine ⟨?_, ?_, ?_, ?_, ?_, ?_, ?_, ?_, ?_, ?_, ?_, ?_, ?_, ?_⟩ <;>
      simp [getNetlifyGraphConfig, resolveField, resolveOptField, jsOrJ, jsOrS,
        jsOrO, JSVal.truthy, hFns, nFns, hNg, nNg, hImpl, nImpl, hTypes, nTypes,
        hOps, nOps, hJson, nJson, hSchema, nSchema, hReq, nReq, hMod, nMod,
        hLang, nLang, hHook, nHook, hGen, nGen, hFid, nFid, hRte, nRte]
  · refine ⟨rfl, rfl, rfl, rfl, rfl, ?_, rfl, rfl, rfl, rfl, rfl, rfl, rfl, rfl⟩
    cases hcb : env.lib.defaultConfigGraphQLConfigJsonFilename with
    | none => simp [getNetlifyGraphConfig, jsOrO, hcb]
    | some l => simp [getNetlifyGraphConfig, jsOrO, JSVal.truthy, hcb]

/-- Witness for C1: at a concrete environment and a user configuration
overriding every setting, the user-specified framework id wins, and with no
user overrides the Netlify-Graph path falls back to the framework default. -/
theorem getNetlifyGraphConfig_override_precedence_witness :
    (getNetlifyGraphConfig sampleGraphEnv
        { functionsDirectory := some "site/functions",
          graph := fullUserConfig }).framework = "remix" ∧
      (getNetlifyGraphConfig sampleGraphEnv
          { functionsDirectory := some "site/functions",
            graph := {} }).netlifyGraphPath =
        JSVal.arr (frameworkDefaultOf sampleGraphEnv
          { functionsDirectory := some "site/functions",
            graph := {} }).netlifyGraphPath := by
  have h := getNetlifyGraphConfig_override_precedence sampleGraphEnv
    (some "site/functions") fullUserConfig
    "custom/fns" "custom/graph" "custom/graph/impl.js" "custom/graph/impl.d.ts"
    "custom/graph/ops.graphql" "custom/config.json" "custom/schema.graphql"
    "./customGraph" "commonjs" "typescript" "/hooks" "gen/custom.js" "remix"
    "browser"
    rfl (by decide) rfl (by decide) rfl (by decide) rfl (by decide)
    rfl (by decide) rfl (by decide) rfl (by decide) rfl (by decide)
    rfl (by decide) rfl (by decide) rfl (by decide) rfl (by decide)
    rfl (by decide) rfl (by decide)
  exact ⟨h.1.2.2.2.2.2.2.2.2.2.2.2.2.1, h.2.2.1⟩

/-- C9: the language setting is auto-detected from the presence of
`tsconfig.json` (`typescript` when it exists, `javascript` otherwise), and a
non-empty user-specified language overrides the auto-detected value. -/
theorem getNetlifyGraphConfig_language (env : GraphEnv) (config : ConfigInput)
    (v : String) (h : config.graph.language = some v) (hne : v ≠ "") :
    (getNetlifyGraphConfig env config).language = v ∧
      (getNetlifyGraphConfig env
          { config with
            graph := { config.graph with language := none } }).language =
        (if env.tsconfigExists then "typescript" else "javascript") := by
  constructor
  · simp [getNetlifyGraphConfig, jsOrS, h, hne]
  · rfl

/-- Witness for C9 at a concrete configuration. -/
theorem getNetlifyGraphConfig_language_witness :
    (getNetlifyGraphConfig sampleGraphEnv
        { functionsDirectory := some "site/functions",
          graph := fullUserConfig }).language = "typescript" ∧
      (getNetlifyGraphConfig sampleGraphEnv
          { functionsDirectory := some "site/functions",
            graph := { fullUserConfig with language := none } }).language =
        (if sampleGraphEnv.tsconfigExists then "typescript"
          else "javascript") :=
  getNetlifyGraphConfig_language sampleGraphEnv
    { functionsDirectory := some "site/functions", graph := fullUserConfig }
    "typescript" rfl (by decide)
